import Mathlib

/-!
Verification development for the identity / credential layer of the
Pangolin VPN-client CLI (fosrl/cli).

The Go sources are shallowly embedded: Go structs become Lean structures,
Go maps become association lists (`List (String × α)`, `List.lookup`
playing the role of map indexing), fallible Go functions return `Except`
or `Option`, and the effectful parts (HTTP calls, file reads, prompts)
are passed in explicitly as oracle values so that each function under
study is a pure function of its inputs.
-/

/-- Tunnel (OLM) credential pair, from `internal/config/accounts.go`
(`OlmCredentials`). -/
structure OlmCredentials where
  id : String
  secret : String
deriving DecidableEq, Repr

/-- Cached server metadata, from `internal/config/accounts.go` (`ServerInfo`). -/
structure ServerInfo where
  version : String
  supporterStatusValid : Bool
  build : String
  enterpriseLicenseValid : Bool
  enterpriseLicenseType : Option String
deriving DecidableEq, Repr

/-- One stored account, from `internal/config/accounts.go` (`Account`).
Go pointer-typed optional fields become `Option`. -/
structure Account where
  userId : String
  host : String
  email : String
  username : Option String
  name : Option String
  sessionToken : String
  orgId : String
  olmCredentials : Option OlmCredentials
  serverInfo : Option ServerInfo
deriving DecidableEq, Repr

/-- The persisted multi-account table, from `internal/config/accounts.go`
(`AccountStore`).  The Go map `map[string]Account` is modelled as an
association list from user id to account; `List.lookup` models map
indexing. -/
structure AccountStore where
  activeUserId : String
  accounts : List (String × Account)
deriving DecidableEq, Repr

/-- `AccountStore.ActiveAccount` from the current iteration of
`accounts.go` (src/unnamed/part_026, lines 88-103): empty active id is
"not logged in"; an active id absent from the map is "active account
missing"; a present account with an empty session token is
"active account missing session token"; otherwise the account is
returned. -/
def activeAccount (s : AccountStore) : Except String Account :=
  if s.activeUserId = "" then .error "not logged in"
  else
    match s.accounts.lookup s.activeUserId with
    | none => .error "active account missing"
    | some a =>
      if a.sessionToken = "" then .error "active account missing session token"
      else .ok a

/-- `AccountStore.Deactivate` from src/unnamed/part_026 (lines 110-126):
the in-memory store mutation performed before `Save()`.  Clears the
session token and org id of the given account (keeping everything else,
in particular the OLM credentials), and clears `activeUserId` if it
pointed at that account. -/
def deactivate (s : AccountStore) (userID : String) : Except String AccountStore :=
  match s.accounts.lookup userID with
  | none => .error "account does not exist"
  | some account =>
    let account := { account with sessionToken := "", orgId := "" }
    Except.ok
      { activeUserId := if s.activeUserId = userID then "" else s.activeUserId
        accounts :=
          s.accounts.map (fun p => if p.1 = userID then (p.1, account) else p) }

/-- The account-store mutation performed by the `logout` command
(`cmd/auth/logout/logout.go`, `logoutMain`, lines 105-114): the active
account's entry is deleted from the map outright, and `activeUserId` is
re-pointed at any remaining account (the first key the map iteration
yields, modelled as the head of the association list), or cleared when
none remain.  `logoutMain` only reaches this code when
`ActiveUserID != ""`. -/
def logoutStoreUpdate (s : AccountStore) : AccountStore :=
  match s.accounts.filter (fun p => p.1 ≠ s.activeUserId) with
  | [] => { activeUserId := "", accounts := [] }
  | (k, a) :: rest => { activeUserId := k, accounts := (k, a) :: rest }

/-! ### Association-list lemmas shared by the store theorems -/

theorem lookup_filter_ne_self (l : List (String × Account)) (u : String) :
    (l.filter (fun p => p.1 ≠ u)).lookup u = none := by
  induction l with
  | nil => simp
  | cons p t ih =>
    obtain ⟨k0, v0⟩ := p
    by_cases h : k0 = u
    · subst h
      simpa using ih
    · have hb : (u == k0) = false := beq_eq_false_iff_ne.mpr (Ne.symm h)
      have hfilter : ((k0, v0) :: t).filter (fun p => p.1 ≠ u)
          = (k0, v0) :: t.filter (fun p => p.1 ≠ u) := by
        simp [List.filter_cons, h]
      rw [hfilter, List.lookup_cons, hb]
      exact ih

theorem lookup_filter_ne_other (l : List (String × Account)) (u k : String)
    (hk : k ≠ u) : (l.filter (fun p => p.1 ≠ u)).lookup k = l.lookup k := by
  induction l with
  | nil => simp
  | cons p t ih =>
    obtain ⟨k0, v0⟩ := p
    by_cases h : k0 = u
    · subst h
      have hb : (k == k0) = false := beq_eq_false_iff_ne.mpr hk
      have hfilter : ((k0, v0) :: t).filter (fun p => p.1 ≠ k0)
          = t.filter (fun p => p.1 ≠ k0) := by
        simp [List.filter_cons]
      rw [hfilter, List.lookup_cons, hb]
      exact ih
    · have hfilter : ((k0, v0) :: t).filter (fun p => p.1 ≠ u)
          = (k0, v0) :: t.filter (fun p => p.1 ≠ u) := by
        simp [List.filter_cons, h]
      rw [hfilter, List.lookup_cons, List.lookup_cons]
      cases hkk : (k == k0) with
      | true => rfl
      | false => exact ih

theorem lookup_map_replace_self (l : List (String × Account)) (u : String)
    (b : Account) (a : Account) (h : l.lookup u = some a) :
    (l.map (fun p => if p.1 = u then (p.1, b) else p)).lookup u = some b := by
  induction l with
  | nil => simp at h
  | cons p t ih =>
    obtain ⟨k0, v0⟩ := p
    by_cases hp : k0 = u
    · subst hp
      have hmap : ((k0, v0) :: t).map (fun p => if p.1 = k0 then (p.1, b) else p)
          = (k0, b) :: t.map (fun p => if p.1 = k0 then (p.1, b) else p) := by
        simp
      rw [hmap]
      simp
    · have hb : (u == k0) = false := beq_eq_false_iff_ne.mpr (Ne.symm hp)
      rw [List.lookup_cons, hb] at h
      have hmap : ((k0, v0) :: t).map (fun p => if p.1 = u then (p.1, b) else p)
          = (k0, v0) :: t.map (fun p => if p.1 = u then (p.1, b) else p) := by
        simp [hp]
      rw [hmap, List.lookup_cons, hb]
      exact ih h

theorem lookup_map_replace_other (l : List (String × Account)) (u k : String)
    (b : Account) (hk : k ≠ u) :
    (l.map (fun p => if p.1 = u then (p.1, b) else p)).lookup k = l.lookup k := by
  induction l with
  | nil => simp
  | cons p t ih =>
    obtain ⟨k0, v0⟩ := p
    by_cases hp : k0 = u
    · subst hp
      have hb : (k == k0) = false := beq_eq_false_iff_ne.mpr hk
      have hmap : ((k0, v0) :: t).map (fun p => if p.1 = k0 then (p.1, b) else p)
          = (k0, b) :: t.map (fun p => if p.1 = k0 then (p.1, b) else p) := by
        simp
      rw [hmap, List.lookup_cons, List.lookup_cons, hb]
      exact ih
    · have hmap : ((k0, v0) :: t).map (fun p => if p.1 = u then (p.1, b) else p)
          = (k0, v0) :: t.map (fun p => if p.1 = u then (p.1, b) else p) := by
        simp [hp]
      rw [hmap, List.lookup_cons, List.lookup_cons]
      cases hkk : (k == k0) with
      | true => rfl
      | false => exact ih

/-! ### Concrete fixtures used by counterexamples and witnesses -/

def olmA : OlmCredentials := { id := "olm-a", secret := "sec-a" }

def acctA : Account :=
  { userId := "u1", host := "https://h1.example", email := "a@example.com"
    username := none, name := none, sessionToken := "tok1", orgId := "org1"
    olmCredentials := some olmA, serverInfo := none }

def acctB : Account :=
  { userId := "u2", host := "https://h2.example", email := "b@example.com"
    username := none, name := none, sessionToken := "tok2", orgId := "org2"
    olmCredentials := none, serverInfo := none }

def storeSingle : AccountStore := { activeUserId := "u1", accounts := [("u1", acctA)] }

def storeTwo : AccountStore :=
  { activeUserId := "u1", accounts := [("u1", acctA), ("u2", acctB)] }

/-- C1 counterexample: the `logout` command does not keep the active
account's entry with cleared fields.  On a store whose only account
`u1` (with a tunnel credential) is active, the logout store mutation
removes the `u1` entry from the map entirely, and on a two-account
store it re-points `activeUserId` at the remaining account `u2`
instead of clearing it. -/
theorem logout_claim_counterexample :
    (logoutStoreUpdate storeSingle).accounts.lookup "u1" = none ∧
    (logoutStoreUpdate storeTwo).activeUserId = "u2" := by
  constructor <;> rfl

/-- C1 (amended): the store's `Deactivate` method clears the session
token and org id of the given account, keeps its entry (tunnel
credential untouched) and clears `activeUserId` when it pointed there;
but the `logout` command does not call it: `logoutMain` deletes the
active account's entry outright and re-points `activeUserId` at some
remaining account (empty only when no account remains). -/
theorem logout_and_deactivate_spec :
    (∀ (s : AccountStore) (a : Account),
        s.accounts.lookup s.activeUserId = some a →
        ((logoutStoreUpdate s).accounts.lookup s.activeUserId = none ∧
          (∀ k, k ≠ s.activeUserId →
            (logoutStoreUpdate s).accounts.lookup k = s.accounts.lookup k) ∧
          (((logoutStoreUpdate s).activeUserId = "" ∧
              (logoutStoreUpdate s).accounts = []) ∨
            ∃ b, (logoutStoreUpdate s).accounts.lookup
                (logoutStoreUpdate s).activeUserId = some b))) ∧
    (∀ (s : AccountStore) (u : String) (a : Account),
        s.accounts.lookup u = some a →
        ∃ s₂, deactivate s u = .ok s₂ ∧
          (∃ a₂, s₂.accounts.lookup u = some a₂ ∧
            a₂.sessionToken = "" ∧ a₂.orgId = "" ∧
            a₂.olmCredentials = a.olmCredentials ∧
            a₂.userId = a.userId ∧ a₂.host = a.host ∧ a₂.email = a.email) ∧
          (∀ k, k ≠ u → s₂.accounts.lookup k = s.accounts.lookup k) ∧
          s₂.activeUserId = (if s.activeUserId = u then "" else s.activeUserId)) := by
  constructor
  · intro s a _
    cases hfilter : s.accounts.filter (fun p => p.1 ≠ s.activeUserId) with
    | nil =>
      have hs : logoutStoreUpdate s = { activeUserId := "", accounts := [] } := by
        unfold logoutStoreUpdate
        rw [hfilter]
      refine ⟨?_, ?_, ?_⟩
      · rw [hs]
        rfl
      · intro k hk
        have h1 := lookup_filter_ne_other s.accounts s.activeUserId k hk
        rw [hfilter] at h1
        rw [hs, ← h1]
      · exact .inl ⟨by rw [hs], by rw [hs]⟩
    | cons hd tl =>
      obtain ⟨k0, v0⟩ := hd
      have hs : logoutStoreUpdate s
          = { activeUserId := k0, accounts := (k0, v0) :: tl } := by
        unfold logoutStoreUpdate
        rw [hfilter]
      refine ⟨?_, ?_, ?_⟩
      · have h1 := lookup_filter_ne_self s.accounts s.activeUserId
        rw [hfilter] at h1
        rw [hs]
        exact h1
      · intro k hk
        have h1 := lookup_filter_ne_other s.accounts s.activeUserId k hk
        rw [hfilter] at h1
        rw [hs]
        exact h1
      · exact .inr ⟨v0, by rw [hs]; exact List.lookup_cons_self⟩
  · intro s u a hlk
    refine ⟨_, by rw [deactivate, hlk], ?_, ?_, rfl⟩
    · refine ⟨{ a with sessionToken := "", orgId := "" }, ?_, rfl, rfl, rfl, rfl, rfl, rfl⟩
      simpa [deactivate, hlk] using
        lookup_map_replace_self s.accounts u { a with sessionToken := "", orgId := "" } a hlk
    · intro k hk
      simpa [deactivate, hlk] using
        lookup_map_replace_other s.accounts u k { a with sessionToken := "", orgId := "" } hk

/-- C1 witness: the amended theorem applied to the concrete two-account
store (for the logout half) and to deactivating `u1` in the one-account
store (for the `Deactivate` half). -/
theorem logout_and_deactivate_spec_witness :
    ((logoutStoreUpdate storeTwo).accounts.lookup storeTwo.activeUserId = none ∧
      (∀ k, k ≠ storeTwo.activeUserId →
        (logoutStoreUpdate storeTwo).accounts.lookup k = storeTwo.accounts.lookup k) ∧
      (((logoutStoreUpdate storeTwo).activeUserId = "" ∧
          (logoutStoreUpdate storeTwo).accounts = []) ∨
        ∃ b, (logoutStoreUpdate storeTwo).accounts.lookup
            (logoutStoreUpdate storeTwo).activeUserId = some b)) ∧
    (∃ s₂, deactivate storeSingle "u1" = .ok s₂ ∧
      (∃ a₂, s₂.accounts.lookup "u1" = some a₂ ∧
        a₂.sessionToken = "" ∧ a₂.orgId = "" ∧
        a₂.olmCredentials = acctA.olmCredentials ∧
        a₂.userId = acctA.userId ∧ a₂.host = acctA.host ∧ a₂.email = acctA.email) ∧
      (∀ k, k ≠ "u1" → s₂.accounts.lookup k = storeSingle.accounts.lookup k) ∧
      s₂.activeUserId = (if storeSingle.activeUserId = "u1" then "" else storeSingle.activeUserId)) :=
  ⟨logout_and_deactivate_spec.1 storeTwo acctA rfl,
   logout_and_deactivate_spec.2 storeSingle "u1" acctA rfl⟩

/-- C2: for a store with a non-empty `activeUserId`, `ActiveAccount`
either returns exactly the account stored under that id with a
non-empty session token, or an error when the id is absent or the
stored token is empty; any returned account is the one stored under
the active id.  (The Lean embedding is a total function, so no panic
is possible.) -/
theorem activeAccount_spec (s : AccountStore) (h : s.activeUserId ≠ "") :
    ((∃ a, s.accounts.lookup s.activeUserId = some a ∧ a.sessionToken ≠ "" ∧
        activeAccount s = .ok a) ∨
      ((∃ e, activeAccount s = .error e) ∧
        (s.accounts.lookup s.activeUserId = none ∨
          ∃ a, s.accounts.lookup s.activeUserId = some a ∧ a.sessionToken = ""))) ∧
    (∀ a, activeAccount s = .ok a →
        s.accounts.lookup s.activeUserId = some a ∧ a.sessionToken ≠ "") := by
  cases hlk : s.accounts.lookup s.activeUserId with
  | none =>
    have heq : activeAccount s = .error "active account missing" := by
      unfold activeAccount
      rw [if_neg h, hlk]
    refine ⟨.inr ⟨⟨_, heq⟩, .inl rfl⟩, ?_⟩
    intro b hb
    rw [heq] at hb
    cases hb
  | some a =>
    by_cases ht : a.sessionToken = ""
    · have heq : activeAccount s = .error "active account missing session token" := by
        unfold activeAccount
        rw [if_neg h, hlk]
        exact if_pos ht
      refine ⟨.inr ⟨⟨_, heq⟩, .inr ⟨a, rfl, ht⟩⟩, ?_⟩
      intro b hb
      rw [heq] at hb
      cases hb
    · have heq : activeAccount s = .ok a := by
        unfold activeAccount
        rw [if_neg h, hlk]
        exact if_neg ht
      refine ⟨.inl ⟨a, rfl, ht, heq⟩, ?_⟩
      intro b hb
      rw [heq] at hb
      cases hb
      exact ⟨rfl, ht⟩

/-- C2 witness: the theorem instantiated at the concrete one-account
store, whose active account `u1` holds the non-empty token `tok1`. -/
theorem activeAccount_spec_witness :
    ((∃ a, storeSingle.accounts.lookup storeSingle.activeUserId = some a ∧
        a.sessionToken ≠ "" ∧ activeAccount storeSingle = .ok a) ∨
      ((∃ e, activeAccount storeSingle = .error e) ∧
        (storeSingle.accounts.lookup storeSingle.activeUserId = none ∨
          ∃ a, storeSingle.accounts.lookup storeSingle.activeUserId = some a ∧
            a.sessionToken = ""))) ∧
    (∀ a, activeAccount storeSingle = .ok a →
        storeSingle.accounts.lookup storeSingle.activeUserId = some a ∧
          a.sessionToken ≠ "") :=
  activeAccount_spec storeSingle (by decide)

/-! ### JSON values and the persisted account-store document

`Save()` (accounts.go) writes the store as one JSON document with the
top-level keys `activeUserId` and `accounts`; loading reads the file and
unmarshals it back using the same field names (the `mapstructure`/`json`
tags agree).  A JSON value is modelled as an inductive tree, and the
tag-directed marshalling of the Go structs is embedded field by field,
including the `omitempty` behaviour of the optional fields (a `nil`
pointer or empty `orgId` is omitted; a missing field unmarshals to the
Go zero value; a present field of the wrong JSON type is an unmarshal
error). -/
inductive Json where
  | null
  | bool (b : Bool)
  | num (n : Int)
  | str (s : String)
  | arr (elems : List Json)
  | obj (fields : List (String × Json))

/-- Reading a required `string` field: absent or `null` yields the Go
zero value `""`, a JSON string yields itself, any other type fails. -/
def getStringField (fs : List (String × Json)) (k : String) : Option String :=
  match fs.lookup k with
  | none => some ""
  | some (.str s) => some s
  | some .null => some ""
  | some _ => none

/-- Reading a `*string` field: absent or `null` is `nil`. -/
def getOptStringField (fs : List (String × Json)) (k : String) :
    Option (Option String) :=
  match fs.lookup k with
  | none => some none
  | some (.str s) => some (some s)
  | some .null => some none
  | some _ => none

/-- Reading a `bool` field: absent or `null` yields `false`. -/
def getBoolField (fs : List (String × Json)) (k : String) : Option Bool :=
  match fs.lookup k with
  | none => some false
  | some (.bool b) => some b
  | some .null => some false
  | some _ => none

/-- `omitempty` marshalling of a `*string` field. -/
def optStrField (k : String) : Option String → List (String × Json)
  | none => []
  | some s => [(k, .str s)]

def encodeOlmCredentials (c : OlmCredentials) : Json :=
  .obj [("id", .str c.id), ("secret", .str c.secret)]

def decodeOlmCredentials (j : Json) : Option OlmCredentials :=
  match j with
  | .obj fs => do
    let id ← getStringField fs "id"
    let secret ← getStringField fs "secret"
    pure ⟨id, secret⟩
  | _ => none

def encodeServerInfo (si : ServerInfo) : Json :=
  .obj ([("version", .str si.version),
         ("supporterStatusValid", .bool si.supporterStatusValid),
         ("build", .str si.build),
         ("enterpriseLicenseValid", .bool si.enterpriseLicenseValid)]
        ++ optStrField "enterpriseLicenseType" si.enterpriseLicenseType)

def decodeServerInfo (j : Json) : Option ServerInfo :=
  match j with
  | .obj fs => do
    let version ← getStringField fs "version"
    let ssv ← getBoolField fs "supporterStatusValid"
    let build ← getStringField fs "build"
    let elv ← getBoolField fs "enterpriseLicenseValid"
    let elt ← getOptStringField fs "enterpriseLicenseType"
    pure ⟨version, ssv, build, elv, elt⟩
  | _ => none

/-- JSON marshalling of one `Account`, in Go struct-field order, with
`omitempty` on `username`, `name`, `orgId`, `olmCredentials` and
`serverInfo`. -/
def encodeAccount (a : Account) : Json :=
  .obj ([("userId", .str a.userId), ("host", .str a.host), ("email", .str a.email)]
        ++ optStrField "username" a.username
        ++ optStrField "name" a.name
        ++ [("sessionToken", .str a.sessionToken)]
        ++ (if a.orgId = "" then [] else [("orgId", .str a.orgId)])
        ++ (match a.olmCredentials with
            | none => []
            | some c => [("olmCredentials", encodeOlmCredentials c)])
        ++ (match a.serverInfo with
            | none => []
            | some si => [("serverInfo", encodeServerInfo si)]))

def decodeAccount (j : Json) : Option Account :=
  match j with
  | .obj fs => do
    let userId ← getStringField fs "userId"
    let host ← getStringField fs "host"
    let email ← getStringField fs "email"
    let username ← getOptStringField fs "username"
    let name ← getOptStringField fs "name"
    let sessionToken ← getStringField fs "sessionToken"
    let orgId ← getStringField fs "orgId"
    let olm ← match fs.lookup "olmCredentials" with
      | none => some none
      | some .null => some none
      | some cj => (decodeOlmCredentials cj).map some
    let si ← match fs.lookup "serverInfo" with
      | none => some none
      | some .null => some none
      | some sj => (decodeServerInfo sj).map some
    pure ⟨userId, host, email, username, name, sessionToken, orgId, olm, si⟩
  | _ => none

def decodeAccountsList : List (String × Json) → Option (List (String × Account))
  | [] => some []
  | (k, j) :: rest => do
    let a ← decodeAccount j
    let tl ← decodeAccountsList rest
    pure ((k, a) :: tl)

/-- The single JSON document `Save()` writes: the two top-level keys set
by `AccountStore.Save` (accounts.go lines 159-168). -/
def encodeAccountStore (s : AccountStore) : Json :=
  .obj [("activeUserId", .str s.activeUserId),
        ("accounts", .obj (s.accounts.map (fun p => (p.1, encodeAccount p.2))))]

def decodeAccountStore (j : Json) : Option AccountStore :=
  match j with
  | .obj fs => do
    let active ← getStringField fs "activeUserId"
    let accounts ← match fs.lookup "accounts" with
      | none => some []
      | some .null => some []
      | some (.obj afs) => decodeAccountsList afs
      | some _ => none
    pure ⟨active, accounts⟩
  | _ => none

/-- The three outcomes of reading the backing `accounts.json`, feeding
`LoadAccountStore` (accounts.go lines 62-86): the file may be missing
(`os.ErrNotExist` from `ReadInConfig`), unreadable for another reason,
or present with some JSON contents. -/
inductive ConfigReadResult where
  | missingFile
  | readFailure (msg : String)
  | fileContents (doc : Json)

/-- `LoadAccountStore` from accounts.go lines 62-86: a missing file is
not an error and yields the empty store; any other read error, or an
unmarshal failure, is surfaced as an error. -/
def loadAccountStore (r : ConfigReadResult) : Except String AccountStore :=
  match r with
  | .missingFile => .ok { activeUserId := "", accounts := [] }
  | .readFailure m => .error m
  | .fileContents doc =>
    match decodeAccountStore doc with
    | none => .error "unmarshal failure"
    | some s => .ok s

/-! ### Round-trip lemmas for the persisted document -/

theorem decode_encode_olm (c : OlmCredentials) :
    decodeOlmCredentials (encodeOlmCredentials c) = some c := by
  cases c
  rfl

theorem decode_encode_serverInfo (si : ServerInfo) :
    decodeServerInfo (encodeServerInfo si) = some si := by
  obtain ⟨v, ssv, b, elv, elt⟩ := si
  cases elt <;> rfl

theorem decode_encode_account (a : Account) :
    decodeAccount (encodeAccount a) = some a := by
  obtain ⟨uid, host, email, un, nm, tok, org, olm, si⟩ := a
  by_cases horg : org = ""
  · subst horg
    rcases un with _ | un0 <;> rcases nm with _ | nm0 <;>
      rcases olm with _ | ⟨cid, csec⟩ <;>
      rcases si with _ | ⟨v0, ssv, bu, elv, elt⟩ <;>
      (try rcases elt with _ | e0) <;>
      simp [decodeAccount, encodeAccount, getStringField, getOptStringField,
        getBoolField, optStrField, decodeOlmCredentials, encodeOlmCredentials,
        decodeServerInfo, encodeServerInfo, List.lookup_cons]
  · rcases un with _ | un0 <;> rcases nm with _ | nm0 <;>
      rcases olm with _ | ⟨cid, csec⟩ <;>
      rcases si with _ | ⟨v0, ssv, bu, elv, elt⟩ <;>
      (try rcases elt with _ | e0) <;>
      simp [decodeAccount, encodeAccount, getStringField, getOptStringField,
        getBoolField, optStrField, decodeOlmCredentials, encodeOlmCredentials,
        decodeServerInfo, encodeServerInfo, List.lookup_cons, horg]

theorem decode_encode_accountsList (l : List (String × Account)) :
    decodeAccountsList (l.map (fun p => (p.1, encodeAccount p.2))) = some l := by
  induction l with
  | nil => rfl
  | cons p t ih =>
    obtain ⟨k0, v0⟩ := p
    simp [decodeAccountsList, decode_encode_account, ih]

/-- C8: saving an account store (serializing it to the single JSON
document `Save()` writes) and loading the document back through
`LoadAccountStore`'s unmarshalling yields a store that is
field-for-field equal to the original, for any number of accounts. -/
theorem save_load_roundTrip (s : AccountStore) :
    loadAccountStore (.fileContents (encodeAccountStore s)) = .ok s := by
  obtain ⟨active, accounts⟩ := s
  have hdec : decodeAccountStore (encodeAccountStore ⟨active, accounts⟩)
      = some ⟨active, accounts⟩ := by
    simp [decodeAccountStore, encodeAccountStore, getStringField,
      decode_encode_accountsList, List.lookup]
  simp only [loadAccountStore]
  rw [hdec]

/-- C7: loading from a missing backing file yields the empty store (no
error); a file that is present but does not unmarshal, or a read
failure other than non-existence, yields an error and not a silently
reset store. -/
theorem loadAccountStore_spec :
    (loadAccountStore .missingFile
        = .ok { activeUserId := "", accounts := [] }) ∧
    (∀ m, loadAccountStore (.readFailure m) = .error m) ∧
    (∀ doc, decodeAccountStore doc = none →
      loadAccountStore (.fileContents doc) = .error "unmarshal failure") := by
  refine ⟨rfl, fun m => rfl, fun doc h => ?_⟩
  simp only [loadAccountStore]
  rw [h]

/-- C7 witness: the missing-file case, and a concrete present-but-
unparseable document (a bare JSON string). -/
theorem loadAccountStore_spec_witness :
    (loadAccountStore .missingFile
        = .ok { activeUserId := "", accounts := [] }) ∧
    loadAccountStore (.fileContents (.str "not an object"))
        = .error "unmarshal failure" :=
  ⟨loadAccountStore_spec.1, loadAccountStore_spec.2.2 (.str "not an object") rfl⟩

/-! ### FlexibleBool (internal/api/types.go lines 35-55) -/

/-- `strconv.ParseBool` from the Go standard library, as used by
`FlexibleBool.UnmarshalJSON`: accepts exactly these twelve strings and
fails on everything else. -/
def strconvParseBool (s : String) : Option Bool :=
  if s = "1" ∨ s = "t" ∨ s = "T" ∨ s = "TRUE" ∨ s = "true" ∨ s = "True" then
    some true
  else if s = "0" ∨ s = "f" ∨ s = "F" ∨ s = "FALSE" ∨ s = "false" ∨ s = "False" then
    some false
  else none

/-- `FlexibleBool.UnmarshalJSON` (internal/api/types.go lines 35-55),
applied to an already-parsed JSON value (the Go code first unmarshals
into `interface{}`, which succeeds for every syntactically valid JSON
document): booleans map to themselves; strings go through
`strconv.ParseBool`, and on a parse error the value is
`value != "" && value != "false"`; every other JSON type yields
`false`.  The function never returns an error. -/
def flexibleBoolUnmarshal (v : Json) : Except String Bool :=
  match v with
  | .bool b => .ok b
  | .str s =>
    match strconvParseBool s with
    | some b => .ok b
    | none => .ok (decide (s ≠ "") && decide (s ≠ "false"))
  | _ => .ok false

/-- C10: FlexibleBool unmarshalling succeeds on every JSON value;
booleans map to themselves, parseable strings to their parsed value,
other non-empty strings to `true`, and the empty string and every
non-boolean non-string value to `false`. -/
theorem flexibleBool_spec :
    (∀ v : Json, ∃ b, flexibleBoolUnmarshal v = .ok b) ∧
    (∀ b, flexibleBoolUnmarshal (.bool b) = .ok b) ∧
    (∀ s b, strconvParseBool s = some b → flexibleBoolUnmarshal (.str s) = .ok b) ∧
    (∀ s, strconvParseBool s = none → s ≠ "" → flexibleBoolUnmarshal (.str s) = .ok true) ∧
    (flexibleBoolUnmarshal (.str "") = .ok false) ∧
    (flexibleBoolUnmarshal .null = .ok false) ∧
    (∀ n, flexibleBoolUnmarshal (.num n) = .ok false) ∧
    (∀ xs, flexibleBoolUnmarshal (.arr xs) = .ok false) ∧
    (∀ fs, flexibleBoolUnmarshal (.obj fs) = .ok false) := by
  refine ⟨?_, fun b => rfl, ?_, ?_, rfl, rfl, fun n => rfl, fun xs => rfl, fun fs => rfl⟩
  · intro v
    cases v with
    | bool b => exact ⟨b, rfl⟩
    | str s =>
      cases hp : strconvParseBool s with
      | none =>
        exact ⟨decide (s ≠ "") && decide (s ≠ "false"),
          by simp [flexibleBoolUnmarshal, hp]⟩
      | some b => exact ⟨b, by simp [flexibleBoolUnmarshal, hp]⟩
    | null => exact ⟨false, rfl⟩
    | num n => exact ⟨false, rfl⟩
    | arr xs => exact ⟨false, rfl⟩
    | obj fs => exact ⟨false, rfl⟩
  · intro s b hp
    simp [flexibleBoolUnmarshal, hp]
  · intro s hp hne
    have hnf : s ≠ "false" := by
      intro hc
      subst hc
      simp [strconvParseBool] at hp
    simp [flexibleBoolUnmarshal, hp, hne, hnf]

/-- C10 witness: a string rejected by `strconv.ParseBool` ("yes") maps
to `true`, via the theorem. -/
theorem flexibleBool_spec_witness :
    flexibleBoolUnmarshal (.str "yes") = .ok true :=
  flexibleBool_spec.2.2.2.1 "yes" rfl (by decide)

/-! ### API response envelope and typed errors (src/unnamed/part_029) -/

/-- The response envelope `APIResponse` (internal/api/types.go lines
62-69), after `FlexibleBool` normalisation of `error`.  `data` is kept
as an optional JSON payload. -/
structure APIResponse where
  data : Option Json
  success : Bool
  error : Bool
  message : String
  status : Int
  stack : String

/-- The typed error `ErrorResponse` (internal/api/types.go lines 72-76). -/
structure ErrorResponse where
  message : String
  status : Int
  stack : String
deriving DecidableEq, Repr

/-- Whether `Client.request` (src/unnamed/part_029 lines 160-190)
treats an envelope as an error: `apiResp.Error.Bool() || !apiResp.Success`. -/
def envelopeIsError (resp : APIResponse) : Bool :=
  resp.error || !resp.success

/-- The error value `Client.request` builds (src/unnamed/part_029 lines
166-189): the envelope's status with fallback to the transport status
code when it is 0, and, when the envelope message is empty, an inline
default table covering only 401/403, 404 and 500. -/
def requestErrorResponse (resp : APIResponse) (httpStatus : Int) : ErrorResponse :=
  let status := if resp.status = 0 then httpStatus else resp.status
  let message :=
    if resp.message = "" then
      if status = 401 ∨ status = 403 then "Unauthorized"
      else if status = 404 then "Not found"
      else if status = 500 then "Internal server error"
      else "An error occurred"
    else resp.message
  { message := message, status := status, stack := resp.stack }

/-- `getDefaultErrorMessage` (src/unnamed/part_029 lines 547-563). -/
def getDefaultErrorMessage (statusCode : Int) : String :=
  if statusCode = 400 then "Bad request"
  else if statusCode = 401 ∨ statusCode = 403 then "Unauthorized"
  else if statusCode = 404 then "Not found"
  else if statusCode = 429 then "Rate limit exceeded"
  else if statusCode = 500 then "Internal server error"
  else "An error occurred"

/-- `getDeviceAuthErrorMessage` (src/unnamed/part_029 lines 565-579),
the table used for the device-auth endpoints. -/
def getDeviceAuthErrorMessage (statusCode : Int) : String :=
  if statusCode = 400 then "Bad request"
  else if statusCode = 403 then "IP address mismatch"
  else if statusCode = 429 then "Rate limit exceeded"
  else if statusCode = 500 then "Internal server error"
  else "An error occurred"

/-- `createErrorResponse` (src/unnamed/part_029 lines 528-545), used by
`LoginWithCookie` (with `getDefaultErrorMessage`) and by the device-auth
endpoints (with `getDeviceAuthErrorMessage`). -/
def createErrorResponse (resp : APIResponse) (httpStatusCode : Int)
    (getDefaultMessage : Int → String) : ErrorResponse :=
  let status := if resp.status = 0 then httpStatusCode else resp.status
  let message := if resp.message = "" then getDefaultMessage status else resp.message
  { message := message, status := status, stack := resp.stack }

/-- Empty-message error envelopes used by the C5 counterexample and
witness. -/
def envNoMsg (st : Int) : APIResponse :=
  { data := none, success := false, error := false
    message := "", status := st, stack := "" }

/-- C5 counterexample: for an envelope with `success:false`, empty
message and status 400 (or 429), the typed error built by
`Client.request` carries the message "An error occurred", not the
claimed "bad request" / "rate limited" defaults — the full claimed
table exists only in `getDefaultErrorMessage`, which `Client.request`
does not use. -/
theorem requestDefaultMessage_counterexample :
    envelopeIsError (envNoMsg 400) = true ∧
    (requestErrorResponse (envNoMsg 400) 400).message = "An error occurred" ∧
    (requestErrorResponse (envNoMsg 429) 429).message = "An error occurred" ∧
    getDefaultErrorMessage 400 = "Bad request" ∧
    getDefaultErrorMessage 429 = "Rate limit exceeded" := by
  refine ⟨rfl, ?_, ?_, ?_, ?_⟩ <;> decide

/-- C5 (amended): every error path carries the envelope's status with
fallback to the transport status code when the envelope status is 0,
and a non-empty envelope message verbatim.  The claimed default table
(400→bad request, 401/403→unauthorized, 404→not found, 429→rate
limited, 500→internal error, else "an error occurred") is exactly
`getDefaultErrorMessage`, used via `createErrorResponse` by the login
path; `Client.request` itself uses an inline table covering only
401/403, 404 and 500, so empty-message envelopes with status 400 or
429 get "An error occurred" there. -/
theorem envelopeError_spec (resp : APIResponse) (httpStatus : Int)
    (f : Int → String) (hmsg : resp.message = "") :
    ((requestErrorResponse resp httpStatus).status
        = (if resp.status = 0 then httpStatus else resp.status)) ∧
    ((createErrorResponse resp httpStatus f).status
        = (if resp.status = 0 then httpStatus else resp.status)) ∧
    (∀ r2 : APIResponse, r2.message ≠ "" →
        (requestErrorResponse r2 httpStatus).message = r2.message ∧
        (createErrorResponse r2 httpStatus f).message = r2.message) ∧
    ((createErrorResponse resp httpStatus getDefaultErrorMessage).message
        = getDefaultErrorMessage
            (if resp.status = 0 then httpStatus else resp.status)) ∧
    (getDefaultErrorMessage 400 = "Bad request" ∧
      getDefaultErrorMessage 401 = "Unauthorized" ∧
      getDefaultErrorMessage 403 = "Unauthorized" ∧
      getDefaultErrorMessage 404 = "Not found" ∧
      getDefaultErrorMessage 429 = "Rate limit exceeded" ∧
      getDefaultErrorMessage 500 = "Internal server error" ∧
      (∀ st : Int, st ≠ 400 → st ≠ 401 → st ≠ 403 → st ≠ 404 → st ≠ 429 →
        st ≠ 500 → getDefaultErrorMessage st = "An error occurred")) ∧
    ((requestErrorResponse resp httpStatus).message
        = (let st := if resp.status = 0 then httpStatus else resp.status
           if st = 401 ∨ st = 403 then "Unauthorized"
           else if st = 404 then "Not found"
           else if st = 500 then "Internal server error"
           else "An error occurred")) := by
  refine ⟨rfl, rfl, ?_, ?_, ⟨rfl, rfl, rfl, rfl, rfl, rfl, ?_⟩, ?_⟩
  · intro r2 h2
    constructor
    · simp [requestErrorResponse, h2]
    · simp [createErrorResponse, h2]
  · simp [createErrorResponse, hmsg]
  · intro st h1 h2 h3 h4 h5 h6
    simp [getDefaultErrorMessage, h1, h2, h3, h4, h5, h6]
  · simp [requestErrorResponse, hmsg]

/-- C5 witness: the amended theorem instantiated at a concrete
empty-message envelope with status 404 over transport status 200. -/
theorem envelopeError_spec_witness :
    ((requestErrorResponse (envNoMsg 404) 200).status
      = (if (404 : Int) = 0 then 200 else 404)) ∧
    (requestErrorResponse (envNoMsg 404) 200).message = "Not found" ∧
    (createErrorResponse (envNoMsg 404) 200 getDefaultErrorMessage).message
      = "Not found" := by
  have h := envelopeError_spec (envNoMsg 404) 200 getDefaultErrorMessage rfl
  refine ⟨h.1, ?_, ?_⟩
  · have h2 := h.2.2.2.2.2
    simpa [envNoMsg] using h2
  · have h2 := h.2.2.2.1
    simpa [envNoMsg] using h2

/-! ### Organization selection (internal/utils/org.go) -/

/-- An organization as returned by `ListUserOrgs`
(internal/api/types.go, `Org`). -/
structure Org where
  orgId : String
  name : String
  isOwner : Option Bool
deriving DecidableEq, Repr

/-- Result of `SelectOrgForm`, together with whether the interactive
selection form was run. -/
structure SelectOrgOutcome where
  result : Except String String
  prompted : Bool
deriving Repr

/-- `SelectOrgForm` (internal/utils/org.go lines 15-61).  The
`ListUserOrgs` API call and the interactive form are passed in as
oracle values: an empty listing is an error, a single organization is
auto-selected with no prompt, and only the multi-organization branch
runs the form. -/
def selectOrgForm (listResult : Except String (List Org))
    (promptSelection : Except String Org) : SelectOrgOutcome :=
  match listResult with
  | .error e => ⟨.error ("failed to list organizations: " ++ e), false⟩
  | .ok [] => ⟨.error "no organizations found for this user", false⟩
  | .ok [o] => ⟨.ok o.orgId, false⟩
  | .ok (_ :: _ :: _) =>
    match promptSelection with
    | .error e => ⟨.error ("error selecting organization: " ++ e), true⟩
    | .ok sel => ⟨.ok sel.orgId, true⟩

/-- C9: with exactly one organization in the listing, `SelectOrgForm`
returns that organization's id without running the selection form;
with an empty listing it returns an error (also without prompting). -/
theorem selectOrgForm_spec :
    (∀ (o : Org) (ps : Except String Org),
      selectOrgForm (.ok [o]) ps = ⟨.ok o.orgId, false⟩) ∧
    (∀ ps : Except String Org,
      selectOrgForm (.ok []) ps
        = ⟨.error "no organizations found for this user", false⟩) :=
  ⟨fun _ _ => rfl, fun _ => rfl⟩

/-! ### Credential recovery (EnsureOlmCredentials,
internal/utils/auth.go lines 197-260) -/

/-- Outcome of the server-side credential lookup
`client.GetUserOlm(userID, account.OlmCredentials.ID)` as observed by
`EnsureOlmCredentials`: success with a non-nil OLM; success with a nil
OLM (or any other error that is not an `*api.ErrorResponse`), which the
code propagates; or an `*api.ErrorResponse`, which makes the code treat
the stored credential as stale. -/
inductive GetUserOlmResult where
  | found
  | otherFailure (msg : String)
  | apiFailure (e : ErrorResponse)

/-- The effectful collaborators of `EnsureOlmCredentials`, as one
oracle: the credential lookup, the cached-fingerprint file read, the
recovery call (a function of the fingerprint string sent), the live
fingerprint gathering, and the create call. -/
structure OlmOracle where
  getUserOlm : GetUserOlmResult
  cachedFingerprintFile : Option String
  recoverOlm : String → Option OlmCredentials
  liveFingerprint : String
  createOlm : Except String OlmCredentials

/-- Result of a run of `EnsureOlmCredentials`: the (possibly mutated)
account, the `changed` flag, the error if any, and call counters for
the create and recovery calls. -/
structure EnsureOlmResult where
  account : Account
  changed : Bool
  failure : Option String
  createCalls : Nat
  recoverCalls : Nat
deriving Repr

/-- The fallback tail of `EnsureOlmCredentials` (auth.go lines
218-259), entered with no locally trusted credential: cached-
fingerprint recovery if a cache file is readable, then live-fingerprint
recovery, then one `CreateOlm` call. -/
def ensureOlmRecovery (o : OlmOracle) (account : Account) : EnsureOlmResult :=
  match o.cachedFingerprintFile with
  | some cached =>
    match o.recoverOlm cached with
    | some creds =>
      ⟨{ account with olmCredentials := some creds }, true, none, 0, 1⟩
    | none =>
      match o.recoverOlm o.liveFingerprint with
      | some creds =>
        ⟨{ account with olmCredentials := some creds }, true, none, 0, 2⟩
      | none =>
        match o.createOlm with
        | .error e => ⟨account, false, some ("failed to create OLM: " ++ e), 1, 2⟩
        | .ok creds =>
          ⟨{ account with olmCredentials := some creds }, true, none, 1, 2⟩
  | none =>
    match o.recoverOlm o.liveFingerprint with
    | some creds =>
      ⟨{ account with olmCredentials := some creds }, true, none, 0, 1⟩
    | none =>
      match o.createOlm with
      | .error e => ⟨account, false, some ("failed to create OLM: " ++ e), 1, 1⟩
      | .ok creds =>
        ⟨{ account with olmCredentials := some creds }, true, none, 1, 1⟩

/-- `EnsureOlmCredentials` (internal/utils/auth.go lines 197-260).
With a stored credential, the server lookup decides: verified →
`(changed=false, no error)` with no mutation; a non-API failure is
propagated; an API failure clears the stored credential and falls into
the recovery tail.  Without a stored credential the recovery tail runs
directly. -/
def ensureOlmCredentials (o : OlmOracle) (account : Account) : EnsureOlmResult :=
  match account.olmCredentials with
  | some _ =>
    match o.getUserOlm with
    | .found => ⟨account, false, none, 0, 0⟩
    | .otherFailure m => ⟨account, false, some ("failed to get OLM: " ++ m), 0, 0⟩
    | .apiFailure _ => ensureOlmRecovery o { account with olmCredentials := none }
  | none => ensureOlmRecovery o account

/-- C6: the recovery chain of `EnsureOlmCredentials`, in order,
stopping at first success.  A stored credential that verifies
server-side is a no-op reporting `changed=false`; a non-API lookup
failure is propagated; a stale credential (API failure) or a missing
one enters the fallback: cached-fingerprint recovery when a cache file
is readable, then live-fingerprint recovery once, then exactly one
`CreateOlm` call; every branch that adopts a recovered or created
credential reports `changed=true`, and `changed=true` holds exactly on
the failure-free adopting branches of the fallback. -/
theorem ensureOlmCredentials_spec (o : OlmOracle) (a : Account) :
    (a.olmCredentials.isSome = true → o.getUserOlm = .found →
      ensureOlmCredentials o a = ⟨a, false, none, 0, 0⟩) ∧
    (∀ m, a.olmCredentials.isSome = true → o.getUserOlm = .otherFailure m →
      ensureOlmCredentials o a
        = ⟨a, false, some ("failed to get OLM: " ++ m), 0, 0⟩) ∧
    (∀ e, a.olmCredentials.isSome = true → o.getUserOlm = .apiFailure e →
      ensureOlmCredentials o a
        = ensureOlmRecovery o { a with olmCredentials := none }) ∧
    (a.olmCredentials = none →
      ensureOlmCredentials o a = ensureOlmRecovery o a) ∧
    (∀ (b : Account) (f : String) (creds : OlmCredentials),
      o.cachedFingerprintFile = some f → o.recoverOlm f = some creds →
      ensureOlmRecovery o b
        = ⟨{ b with olmCredentials := some creds }, true, none, 0, 1⟩) ∧
    (∀ (b : Account) (creds : OlmCredentials),
      (∀ f, o.cachedFingerprintFile = some f → o.recoverOlm f = none) →
      o.recoverOlm o.liveFingerprint = some creds →
      ((ensureOlmRecovery o b).account = { b with olmCredentials := some creds } ∧
        (ensureOlmRecovery o b).changed = true ∧
        (ensureOlmRecovery o b).failure = none ∧
        (ensureOlmRecovery o b).createCalls = 0)) ∧
    (∀ b : Account,
      (∀ f, o.cachedFingerprintFile = some f → o.recoverOlm f = none) →
      o.recoverOlm o.liveFingerprint = none →
      ((ensureOlmRecovery o b).createCalls = 1 ∧
        (∀ creds, o.createOlm = .ok creds →
          (ensureOlmRecovery o b).account
              = { b with olmCredentials := some creds } ∧
            (ensureOlmRecovery o b).changed = true ∧
            (ensureOlmRecovery o b).failure = none) ∧
        (∀ e, o.createOlm = .error e →
          (ensureOlmRecovery o b).changed = false ∧
            (ensureOlmRecovery o b).account = b ∧
            (ensureOlmRecovery o b).failure
              = some ("failed to create OLM: " ++ e)))) ∧
    (∀ b : Account,
      (ensureOlmRecovery o b).changed = true ↔
        (ensureOlmRecovery o b).failure = none) := by
  refine ⟨?_, ?_, ?_, ?_, ?_, ?_, ?_, ?_⟩
  · intro hsome hfound
    cases hc : a.olmCredentials with
    | none => rw [hc] at hsome; cases hsome
    | some c => simp [ensureOlmCredentials, hc, hfound]
  · intro m hsome hother
    cases hc : a.olmCredentials with
    | none => rw [hc] at hsome; cases hsome
    | some c => simp [ensureOlmCredentials, hc, hother]
  · intro e hsome hapi
    cases hc : a.olmCredentials with
    | none => rw [hc] at hsome; cases hsome
    | some c => simp [ensureOlmCredentials, hc, hapi]
  · intro hnone
    simp [ensureOlmCredentials, hnone]
  · intro b f creds hcache hrec
    simp [ensureOlmRecovery, hcache, hrec]
  · intro b creds hcachefail hlive
    cases hcache : o.cachedFingerprintFile with
    | none => simp [ensureOlmRecovery, hcache, hlive]
    | some f =>
      have hrec := hcachefail f hcache
      simp [ensureOlmRecovery, hcache, hrec, hlive]
  · intro b hcachefail hlive
    cases hcache : o.cachedFingerprintFile with
    | none =>
      cases hcrt : o.createOlm with
      | error e =>
        refine ⟨?_, ?_, ?_⟩ <;>
          simp [ensureOlmRecovery, hcache, hlive, hcrt]
      | ok creds =>
        refine ⟨?_, ?_, ?_⟩ <;>
          simp [ensureOlmRecovery, hcache, hlive, hcrt]
    | some f =>
      have hrec := hcachefail f hcache
      cases hcrt : o.createOlm with
      | error e =>
        refine ⟨?_, ?_, ?_⟩ <;>
          simp [ensureOlmRecovery, hcache, hrec, hlive, hcrt]
      | ok creds =>
        refine ⟨?_, ?_, ?_⟩ <;>
          simp [ensureOlmRecovery, hcache, hrec, hlive, hcrt]
  · intro b
    cases hcache : o.cachedFingerprintFile with
    | none =>
      cases hlive : o.recoverOlm o.liveFingerprint with
      | some creds => simp [ensureOlmRecovery, hcache, hlive]
      | none =>
        cases hcrt : o.createOlm with
        | error e => simp [ensureOlmRecovery, hcache, hlive, hcrt]
        | ok creds => simp [ensureOlmRecovery, hcache, hlive, hcrt]
    | some f =>
      cases hrec : o.recoverOlm f with
      | some creds => simp [ensureOlmRecovery, hcache, hrec]
      | none =>
        cases hlive : o.recoverOlm o.liveFingerprint with
        | some creds => simp [ensureOlmRecovery, hcache, hrec, hlive]
        | none =>
          cases hcrt : o.createOlm with
          | error e => simp [ensureOlmRecovery, hcache, hrec, hlive, hcrt]
          | ok creds => simp [ensureOlmRecovery, hcache, hrec, hlive, hcrt]

/-- Oracle fixture for the C6 witness: the lookup verifies, the cache
file is absent, recovery always fails, creation succeeds. -/
def olmOracleW : OlmOracle :=
  { getUserOlm := .found, cachedFingerprintFile := none
    recoverOlm := fun _ => none, liveFingerprint := "fp-live"
    createOlm := .ok { id := "olm-new", secret := "sec-new" } }

/-- C6 witness: with the concrete oracle, the verified account `acctA`
is a no-op with `changed=false`, and the fallback on `acctB` (both
recoveries failing) calls create exactly once and reports
`changed=true`. -/
theorem ensureOlmCredentials_spec_witness :
    ensureOlmCredentials olmOracleW acctA = ⟨acctA, false, none, 0, 0⟩ ∧
    (ensureOlmRecovery olmOracleW acctB).createCalls = 1 ∧
    (ensureOlmRecovery olmOracleW acctB).changed = true :=
  have h := ensureOlmCredentials_spec olmOracleW acctA
  have h7 := (ensureOlmCredentials_spec olmOracleW acctB).2.2.2.2.2.2.1 acctB
    (fun f hf => by cases hf) rfl
  ⟨h.1 rfl rfl, h7.1,
    (h7.2.1 { id := "olm-new", secret := "sec-new" } rfl).2.1⟩

/-! ### Device-authorization poll loop (`loginWithWeb`,
src/unnamed/part_002 lines 390-448)

Time is modelled in whole seconds relative to the start of polling: a
poll call itself is instantaneous and each `time.Sleep` advances the
clock, so `t` is the elapsed wall-clock time when an iteration begins.
The code polls every 3 seconds, backs off 10 seconds on a rate limit,
computes `expiresAt = start + expiresInSeconds`, and caps the whole
loop at `maxPollDuration` = 5 minutes = 300 seconds.  One poll either
returns a response with `verified`/`token` and the envelope `message`,
or fails with an `*api.ErrorResponse` status, or fails with a
non-API (transport) error. -/
inductive PollResult where
  | ok (verified : Bool) (token : String) (message : String)
  | apiError (status : Int)
  | transportError (msg : String)

/-- Terminal outcomes of the poll loop, with the exit branches of the
source: the client-side expiry check, the 5-minute ceiling, success, a
verified response with an empty token, the server-reported
"Code expired"/"Code not found" messages, the 403 IP-mismatch error,
any other API error (status surfaced), and transport errors (message
surfaced). -/
inductive LoginOutcome where
  | verified (token : String)
  | codeExpired
  | pollTimeout
  | noToken
  | codeGone
  | ipMismatch
  | apiFailed (status : Int)
  | transportFailed (msg : String)
deriving DecidableEq, Repr

/-- The poll loop of `loginWithWeb` (part_002 lines 397-448), as a
function of the stream of poll responses.  Checks, in source order:
wall-clock expiry (`time.Now().After(expiresAt)`), the global ceiling
(`time.Since(startTime) > maxPollDuration`), then the poll response:
429 sleeps 10 s and retries, 403 is terminal, other errors are
terminal; `verified` with a token succeeds, `verified` without a token
fails, the code-gone messages are terminal, and otherwise the loop
sleeps the 3-second poll interval and continues.  The second component
of the result is the elapsed time at exit. -/
def loginPollLoop (responses : Nat → PollResult) (expiresIn : Nat)
    (k : Nat) (t : Nat) : LoginOutcome × Nat :=
  if h1 : t > expiresIn then (.codeExpired, t)
  else if h2 : t > 300 then (.pollTimeout, t)
  else
    match responses k with
    | .apiError s =>
      if s = 429 then loginPollLoop responses expiresIn (k + 1) (t + 10)
      else if s = 403 then (.ipMismatch, t)
      else (.apiFailed s, t)
    | .transportError m => (.transportFailed m, t)
    | .ok verified token message =>
      if verified then
        if token = "" then (.noToken, t) else (.verified token, t)
      else if message = "Code expired" ∨ message = "Code not found" then
        (.codeGone, t)
      else loginPollLoop responses expiresIn (k + 1) (t + 3)
termination_by 301 - t
decreasing_by
  · omega
  · omega

/-- A poll response that keeps the loop polling: not verified, not an
error, and not carrying a code-gone message. -/
def quietResponse : PollResult → Bool
  | .ok false _ m => decide (m ≠ "Code expired") && decide (m ≠ "Code not found")
  | _ => false

theorem pollLoop_quiet_aux (responses : Nat → PollResult) (expiresIn : Nat)
    (hq : ∀ k, quietResponse (responses k) = true) (he : expiresIn ≤ 300) :
    ∀ (n k t : Nat), 301 - t ≤ n → t ≤ expiresIn + 3 →
      (loginPollLoop responses expiresIn k t).1 = .codeExpired ∧
      (loginPollLoop responses expiresIn k t).2 ≤ expiresIn + 3 := by
  intro n
  induction n with
  | zero =>
    intro k t hn ht
    rw [loginPollLoop, dif_pos (by omega : t > expiresIn)]
    exact ⟨rfl, ht⟩
  | succ n ih =>
    intro k t hn ht
    by_cases hexp : t > expiresIn
    · rw [loginPollLoop, dif_pos hexp]
      exact ⟨rfl, ht⟩
    · have h300 : ¬t > 300 := by omega
      have hqk := hq k
      cases hrs : responses k with
      | ok v tok m =>
        cases v with
        | true =>
          rw [hrs] at hqk
          simp [quietResponse] at hqk
        | false =>
          rw [hrs] at hqk
          simp [quietResponse] at hqk
          obtain ⟨hm1, hm2⟩ := hqk
          have hstep : loginPollLoop responses expiresIn k t
              = loginPollLoop responses expiresIn (k + 1) (t + 3) := by
            rw [loginPollLoop, dif_neg hexp, dif_neg h300, hrs]
            simp [hm1, hm2]
          rw [hstep]
          exact ih (k + 1) (t + 3) (by omega) (by omega)
      | apiError s =>
        rw [hrs] at hqk
        simp [quietResponse] at hqk
      | transportError m =>
        rw [hrs] at hqk
        simp [quietResponse] at hqk

theorem pollLoop_ceiling_aux :
    ∀ (n : Nat) (rs : Nat → PollResult) (e k t : Nat), 301 - t ≤ n → t ≤ 310 →
      (loginPollLoop rs e k t).2 ≤ 310 := by
  intro n
  induction n with
  | zero =>
    intro rs e k t hn ht
    by_cases hexp : t > e
    · rw [loginPollLoop, dif_pos hexp]
      exact ht
    · rw [loginPollLoop, dif_neg hexp, dif_pos (by omega : t > 300)]
      exact ht
  | succ n ih =>
    intro rs e k t hn ht
    by_cases hexp : t > e
    · rw [loginPollLoop, dif_pos hexp]
      exact ht
    · by_cases h300 : t > 300
      · rw [loginPollLoop, dif_neg hexp, dif_pos h300]
        exact ht
      · cases hrs : rs k with
        | apiError s =>
          by_cases h429 : s = 429
          · have hstep : loginPollLoop rs e k t = loginPollLoop rs e (k + 1) (t + 10) := by
              rw [loginPollLoop, dif_neg hexp, dif_neg h300, hrs]
              simp [h429]
            rw [hstep]
            exact ih rs e (k + 1) (t + 10) (by omega) (by omega)
          · by_cases h403 : s = 403
            · have hstep : loginPollLoop rs e k t = (.ipMismatch, t) := by
                rw [loginPollLoop, dif_neg hexp, dif_neg h300, hrs]
                simp [h429, h403]
              rw [hstep]
              omega
            · have hstep : loginPollLoop rs e k t = (.apiFailed s, t) := by
                rw [loginPollLoop, dif_neg hexp, dif_neg h300, hrs]
                simp [h429, h403]
              rw [hstep]
              omega
        | transportError m =>
          have hstep : loginPollLoop rs e k t = (.transportFailed m, t) := by
            rw [loginPollLoop, dif_neg hexp, dif_neg h300, hrs]
          rw [hstep]
          omega
        | ok v tok m =>
          cases v with
          | true =>
            by_cases htok : tok = ""
            · have hstep : loginPollLoop rs e k t = (.noToken, t) := by
                rw [loginPollLoop, dif_neg hexp, dif_neg h300, hrs]
                simp [htok]
              rw [hstep]
              omega
            · have hstep : loginPollLoop rs e k t = (.verified tok, t) := by
                rw [loginPollLoop, dif_neg hexp, dif_neg h300, hrs]
                simp [htok]
              rw [hstep]
              omega
          | false =>
            by_cases hm : m = "Code expired" ∨ m = "Code not found"
            · have hstep : loginPollLoop rs e k t = (.codeGone, t) := by
                rw [loginPollLoop, dif_neg hexp, dif_neg h300, hrs]
                simp [hm]
              rw [hstep]
              omega
            · have hstep : loginPollLoop rs e k t
                  = loginPollLoop rs e (k + 1) (t + 3) := by
                rw [loginPollLoop, dif_neg hexp, dif_neg h300, hrs]
                simp [hm]
              rw [hstep]
              exact ih rs e (k + 1) (t + 3) (by omega) (by omega)

/-- C3: (a) for any stream of successful, unverified poll responses
that never carry a code-gone message, and any code lifetime of at most
the 300-second global ceiling, the loop checks wall-clock expiry
before each poll and exits in the expiry outcome no later than
`expiresIn` plus one 3-second poll interval after start; (b)
independently of the responses and of the expiry bookkeeping, the
5-minute ceiling bounds the exit time of every run started at 0 by 310
seconds (the ceiling plus one 10-second rate-limit backoff). -/
theorem pollLoop_expiry_spec (responses : Nat → PollResult) (expiresIn : Nat)
    (hq : ∀ k, quietResponse (responses k) = true) (he : expiresIn ≤ 300) :
    ((loginPollLoop responses expiresIn 0 0).1 = .codeExpired ∧
      (loginPollLoop responses expiresIn 0 0).2 ≤ expiresIn + 3) ∧
    (∀ (rs : Nat → PollResult) (e : Nat),
      (loginPollLoop rs e 0 0).2 ≤ 310) := by
  constructor
  · exact pollLoop_quiet_aux responses expiresIn hq he 301 0 0 (by omega) (by omega)
  · intro rs e
    exact pollLoop_ceiling_aux 301 rs e 0 0 (by omega) (by omega)

/-- The constant stream of pending (unverified) poll responses, for
the C3 witness. -/
def quietStream : Nat → PollResult := fun _ => .ok false "" "pending authorization"

/-- C3 witness: with a 6-second code lifetime and the pending stream,
the loop exits in the expiry outcome within 9 seconds; the ceiling
bound holds for every stream. -/
theorem pollLoop_expiry_spec_witness :
    (((loginPollLoop quietStream 6 0 0).1 = .codeExpired ∧
      (loginPollLoop quietStream 6 0 0).2 ≤ 6 + 3) ∧
    (∀ (rs : Nat → PollResult) (e : Nat),
      (loginPollLoop rs e 0 0).2 ≤ 310)) :=
  pollLoop_expiry_spec quietStream 6 (fun _ => rfl) (by omega)

/-- C4: classification of each poll response at any live iteration of
the loop (within both the expiry and the ceiling): unverified
responses without a code-gone message continue after the 3-second
interval; a verified response with a token is terminal success with
that token; a verified response with an empty token is a terminal
failure, not success; a 429 rate-limit error continues after the
longer 10-second backoff (not terminal); a 403 error is terminal
(IP mismatch); any other API error is terminal carrying its status,
and a transport error is terminal carrying its message. -/
theorem pollLoop_classify (rs : Nat → PollResult) (e k t : Nat)
    (h1 : t ≤ e) (h2 : t ≤ 300) :
    (∀ tok m, rs k = .ok false tok m → m ≠ "Code expired" → m ≠ "Code not found" →
      loginPollLoop rs e k t = loginPollLoop rs e (k + 1) (t + 3)) ∧
    (∀ tok m, rs k = .ok true tok m → tok ≠ "" →
      loginPollLoop rs e k t = (.verified tok, t)) ∧
    (∀ m, rs k = .ok true "" m → loginPollLoop rs e k t = (.noToken, t)) ∧
    (∀ tok m, rs k = .ok false tok m →
      (m = "Code expired" ∨ m = "Code not found") →
      loginPollLoop rs e k t = (.codeGone, t)) ∧
    (rs k = .apiError 429 →
      loginPollLoop rs e k t = loginPollLoop rs e (k + 1) (t + 10)) ∧
    (rs k = .apiError 403 → loginPollLoop rs e k t = (.ipMismatch, t)) ∧
    (∀ s, rs k = .apiError s → s ≠ 429 → s ≠ 403 →
      loginPollLoop rs e k t = (.apiFailed s, t)) ∧
    (∀ m, rs k = .transportError m →
      loginPollLoop rs e k t = (.transportFailed m, t)) := by
  have hexp : ¬t > e := by omega
  have h300 : ¬t > 300 := by omega
  refine ⟨?_, ?_, ?_, ?_, ?_, ?_, ?_, ?_⟩
  · intro tok m hrs hm1 hm2
    rw [loginPollLoop, dif_neg hexp, dif_neg h300, hrs]
    simp [hm1, hm2]
  · intro tok m hrs htok
    rw [loginPollLoop, dif_neg hexp, dif_neg h300, hrs]
    simp [htok]
  · intro m hrs
    rw [loginPollLoop, dif_neg hexp, dif_neg h300, hrs]
    simp
  · intro tok m hrs hm
    rw [loginPollLoop, dif_neg hexp, dif_neg h300, hrs]
    simp [hm]
  · intro hrs
    rw [loginPollLoop, dif_neg hexp, dif_neg h300, hrs]
    simp
  · intro hrs
    rw [loginPollLoop, dif_neg hexp, dif_neg h300, hrs]
    simp
  · intro s hrs h429 h403
    rw [loginPollLoop, dif_neg hexp, dif_neg h300, hrs]
    simp [h429, h403]
  · intro m hrs
    rw [loginPollLoop, dif_neg hexp, dif_neg h300, hrs]

/-- Stream for the C4 witness: a rate-limit error first, then a
verified response with token "T". -/
def classifyStream : Nat → PollResult :=
  fun k => if k = 0 then .apiError 429 else .ok true "T" ""

/-- C4 witness: the first 429 is retried after the 10-second backoff
(not terminal) and the following verified response succeeds with the
token, by two applications of the classification theorem. -/
theorem pollLoop_classify_witness :
    loginPollLoop classifyStream 60 0 0 = (.verified "T", 10) := by
  have hstep :=
    (pollLoop_classify classifyStream 60 0 0 (by omega) (by omega)).2.2.2.2.1 rfl
  have hdone :=
    (pollLoop_classify classifyStream 60 1 10 (by omega) (by omega)).2.1 "T" ""
      rfl (by decide)
  rw [hstep, hdone]
